import Mathlib

/-!
Verification of the Dialogue Orchestrator of the AI-assistant-chat-RAG
repository.  The definitions below are a shallow embedding, translated
from `agent/app/main.py` and `agent/app/state_graph.py`.  External
collaborators (the GCS session store, the OpenAI completion service, the
retrieval pipeline) are modelled as explicit behaviour parameters, since
their outcomes are environment-dependent.  String functions model the
Python operations on the ASCII fragment that all compared tokens live in.
-/

/-! ## Character and string utilities (models of Python `str` methods) -/

/-- Model of Python `str.lower` on one character (ASCII fragment):
uppercase ASCII letters (code points 65-90) map to their lowercase form. -/
def charLower (c : Char) : Char :=
  if 65 ≤ c.toNat ∧ c.toNat ≤ 90 then Char.ofNat (c.toNat + 32) else c

/-- Model of Python `str.upper` on one character (ASCII fragment):
lowercase ASCII letters (code points 97-122) map to their uppercase form. -/
def charUpper (c : Char) : Char :=
  if 97 ≤ c.toNat ∧ c.toNat ≤ 122 then Char.ofNat (c.toNat - 32) else c

/-- Model of Python `str.lower`. -/
def strLower (s : String) : String := ⟨s.data.map charLower⟩

/-- Model of Python `str.upper`. -/
def strUpper (s : String) : String := ⟨s.data.map charUpper⟩

/-- Regex `\w` (word character), ASCII fragment: letters, digits, underscore. -/
def isWordChar (c : Char) : Bool := c.isAlphanum || c = '_'

/-- Regex `\s` (whitespace), the characters Python's `re` counts for ASCII text. -/
def isSpaceChar (c : Char) : Bool :=
  c = ' ' || c = '\t' || c = '\n' || c = '\r' || c = '\x0b' || c = '\x0c'

/-- Model of Python `str.strip()` (no argument): drop leading and
trailing whitespace. -/
def strStrip (s : String) : String :=
  ⟨((s.data.dropWhile (fun c => isSpaceChar c)).reverse.dropWhile
      (fun c => isSpaceChar c)).reverse⟩

theorem toNat_charLower (c : Char) :
    (charLower c).toNat =
      if 65 ≤ c.toNat ∧ c.toNat ≤ 90 then c.toNat + 32 else c.toNat := by
  unfold charLower
  split
  · rename_i h
    have hv : Nat.isValidChar (c.toNat + 32) := Or.inl (by omega)
    unfold Char.ofNat
    rw [dif_pos hv]
    rfl
  · rfl

theorem charLower_idem (c : Char) : charLower (charLower c) = charLower c := by
  have h1 := toNat_charLower c
  by_cases h : 65 ≤ c.toNat ∧ c.toNat ≤ 90
  · rw [if_pos h] at h1
    have hno : ¬(65 ≤ (charLower c).toNat ∧ (charLower c).toNat ≤ 90) := by omega
    rw [charLower.eq_def, if_neg hno]
  · rw [if_neg h] at h1
    have e : charLower c = c := by rw [charLower.eq_def, if_neg h]
    rw [e]
    exact e

theorem strLower_idem (s : String) : strLower (strLower s) = strLower s := by
  unfold strLower
  simp only [List.map_map]
  exact congrArg String.mk (List.map_congr_left (fun a _ => charLower_idem a))

/-! ## Message model (main.py)

A conversation turn is a JSON-ish object; the orchestrator only ever reads
its `role` and `content` keys (`_normalize_msg` projects onto exactly these
two), so a message is modelled as that projection.  `content` may be a
string, a JSON list, a JSON object, or Python `None` (missing/null). -/

inductive Content where
  | str : String → Content
  | list : List Content → Content
  | dict : List (String × Content) → Content
  | null : Content

/-- One conversation turn: the `role`/`content` projection of the dict.
`role` is `Option` because `m.get("role")` yields `None` for a missing key. -/
structure Msg where
  role : Option String
  content : Content

/-- `_normalize_msg` (main.py): keep exactly the role and content fields. -/
def normalizeMsg (m : Msg) : Msg := { role := m.role, content := m.content }

/-- An opening brace character, for JSON object serialization. -/
def lbraceChar : Char := Char.ofNat 123

/-- A closing brace character. -/
def rbraceChar : Char := Char.ofNat 125

/-- A single-quote character, for Python `repr` of strings. -/
def squoteChar : Char := Char.ofNat 39

/-- Escaping of one character inside a JSON string literal, as
`json.dumps` does for the common cases (quote, backslash, newline,
tab, carriage return). -/
def jsonEscapeChar (c : Char) : String :=
  if c = '"' then "\\\""
  else if c = '\\' then "\\\\"
  else if c = '\n' then "\\n"
  else if c = '\t' then "\\t"
  else if c = '\r' then "\\r"
  else String.singleton c

/-- Escaping of a JSON string body. -/
def jsonEscape (s : String) : String := String.join (s.data.map jsonEscapeChar)

mutual

/-- Model of Python `json.dumps(content, ensure_ascii=False)` with the
default separators, used by `_diff_new_assistant_messages` to serialize
structured content to a stable comparison string. -/
def jsonDumps : Content → String
  | .str s => "\"" ++ jsonEscape s ++ "\""
  | .list xs => "[" ++ jsonDumpsList xs ++ "]"
  | .dict kvs => String.singleton lbraceChar ++ jsonDumpsKVs kvs ++ String.singleton rbraceChar
  | .null => "null"

/-- Elements of a JSON array, joined by `", "`. -/
def jsonDumpsList : List Content → String
  | [] => ""
  | [x] => jsonDumps x
  | x :: xs => jsonDumps x ++ ", " ++ jsonDumpsList xs

/-- Members of a JSON object, joined by `", "`, each key-value pair
separated by `": "`. -/
def jsonDumpsKVs : List (String × Content) → String
  | [] => ""
  | [(k, v)] => "\"" ++ jsonEscape k ++ "\": " ++ jsonDumps v
  | (k, v) :: kvs => "\"" ++ jsonEscape k ++ "\": " ++ jsonDumps v ++ ", " ++ jsonDumpsKVs kvs

end

mutual

/-- Model of Python `repr` on content values (as used by `str()` on a
list or dict): strings in single quotes, list/dict brackets. -/
def pyRepr : Content → String
  | .str s => String.singleton squoteChar ++ s ++ String.singleton squoteChar
  | .list xs => "[" ++ pyReprList xs ++ "]"
  | .dict kvs => String.singleton lbraceChar ++ pyReprKVs kvs ++ String.singleton rbraceChar
  | .null => "None"

/-- Elements of a Python list repr, joined by `", "`. -/
def pyReprList : List Content → String
  | [] => ""
  | [x] => pyRepr x
  | x :: xs => pyRepr x ++ ", " ++ pyReprList xs

/-- Members of a Python dict repr. -/
def pyReprKVs : List (String × Content) → String
  | [] => ""
  | [(k, v)] => String.singleton squoteChar ++ k ++ String.singleton squoteChar ++ ": " ++ pyRepr v
  | (k, v) :: kvs =>
    String.singleton squoteChar ++ k ++ String.singleton squoteChar ++ ": " ++ pyRepr v ++ ", " ++ pyReprKVs kvs

end

/-- Model of Python `str(content)`: a string is itself, `None` prints as
`"None"`, structured values print as their repr. -/
def pyStr : Content → String
  | .str s => s
  | .null => "None"
  | .list xs => pyRepr (.list xs)
  | .dict kvs => pyRepr (.dict kvs)

/-- The comparison string for one content value used by the diff fallback
(main.py line 135/138): `json.dumps(...)` for a dict or list, `str(...)`
otherwise. -/
def contentKey : Content → String
  | .str s => s
  | .null => "None"
  | .list xs => jsonDumps (.list xs)
  | .dict kvs => jsonDumps (.dict kvs)

/-- The normalized `(role, content)` pair a message contributes to the
set-difference in `_diff_new_assistant_messages`. -/
def msgKey (m : Msg) : Option String × String := (m.role, contentKey m.content)

/-! ## Session reconciliation (main.py) -/

/-- `_diff_new_assistant_messages` (main.py lines 124-141).  Fast path:
when `after` is longer, take the tail slice and keep assistant-role
entries.  Fallback: set-difference over normalized `(role, content)`
keys, keeping assistant-role entries whose key does not occur in
`before`.  (In the model every element is a dict, so the source's
`isinstance(m, dict)` guard on the fast path is always true.) -/
def diffNewAssistantMessages (before after : List Msg) : List Msg :=
  if after.length > before.length then
    ((after.drop before.length).filter (fun m => m.role == some "assistant")).map normalizeMsg
  else
    let seen := before.map msgKey
    (after.filter
      (fun m => !(decide (msgKey m ∈ seen)) && (m.role == some "assistant"))).map normalizeMsg

/-- Steps 4-5 of the `chat` endpoint (main.py lines 256-262): compute the
new assistant messages between `before` and `after` and extend `before`
with them.  (The source guards the extend with `if new_assistant:`, a
no-op distinction since extending by the empty list changes nothing.) -/
def mergeStep (before after : List Msg) : List Msg :=
  before ++ diffNewAssistantMessages before after

/-! ## The chat endpoint (main.py `create_app.chat`)

External collaborators are modelled as explicit behaviour values:
the GCS load can succeed with a message list, report an absent thread,
or fail (the source catches any exception); the GCS save can succeed or
fail (the source catches and logs, returning `None` either way, so its
outcome is invisible to the handler); the LangGraph invocation either
returns a result message list (`result.get("messages", [])`) or raises;
the retrieval call either returns citations or raises. -/

inductive LoadOutcome where
  | found : List Msg → LoadOutcome
  | notFound : LoadOutcome
  | fault : LoadOutcome

inductive SaveOutcome where
  | ok : SaveOutcome
  | fault : SaveOutcome

/-- `load_thread_from_gcs` (main.py lines 72-93): an absent thread gives
`[]`; any exception is caught and also gives `[]`. -/
def loadThreadFromGcs : LoadOutcome → List Msg
  | .found msgs => msgs
  | .notFound => []
  | .fault => []

/-- `save_thread_to_gcs` (main.py lines 96-109): any exception is caught
and logged; the function returns `None` in every case, so the caller
observes nothing. -/
def saveThreadToGcs : SaveOutcome → Unit := fun _ => ()

/-- Retrieval results are opaque to the orchestrator; only their identity
matters to the claims. -/
def Citation := String

/-- The request body of `POST /api/chat` (`ChatRequest` in main.py). -/
structure ChatRequest where
  message : String
  history : List Msg
  stream : Bool
  system_prompt : Option String
  thread_id : Option String

/-- An HTTP error surfaced to the caller (status code and detail). -/
structure HttpError where
  status : Nat
  detail : String

/-- What a successful chat request produces: the reply, the citations,
and the merged history passed to `save_thread_to_gcs`. -/
structure ChatOutcome where
  reply : String
  citations : List Citation
  savedMessages : List Msg

/-- Reply extraction (main.py line 269): `content.strip()` succeeds only
on a string; on a list, dict or `None` the attribute access raises. -/
def replyOf : Option Msg → Except Unit String
  | none => .ok "(no assistant response found)"
  | some m =>
    match m.content with
    | .str s => .ok (strStrip s)
    | _ => .error ()

/-- The `chat` endpoint (main.py lines 228-281).  `defaultPrompt` stands
for `DEFAULT_SYSTEM_PROMPT` (loaded from configuration at startup);
`gb` is the behaviour of `graph.ainvoke` on the history it is given;
`ragB` the behaviour of `rag.retrieve`.  A graph exception is re-raised
as an HTTP 500; an exception while extracting the reply (non-string
content) propagates as an unhandled 500.  The request's `history` field
is never read. -/
def chat (defaultPrompt : String) (load : LoadOutcome) (save : SaveOutcome)
    (gb : List Msg → Except String (List Msg)) (ragB : Except Unit (List Citation))
    (req : ChatRequest) : Except HttpError ChatOutcome :=
  let systemMsg := req.system_prompt.getD defaultPrompt
  let loaded := (loadThreadFromGcs load).map normalizeMsg
  let history0 := if loaded.isEmpty then [⟨some "system", .str systemMsg⟩] else loaded
  let history1 := history0 ++ [⟨some "user", .str req.message⟩]
  match gb history1 with
  | .error e => .error ⟨500, "Graph error: " ++ e⟩
  | .ok resultRaw =>
    let resultMsgs := resultRaw.map normalizeMsg
    let after := if resultMsgs.isEmpty then history1 else resultMsgs
    let merged := mergeStep history1 after
    let lastAssistant := merged.reverse.find? (fun m => m.role == some "assistant")
    match replyOf lastAssistant with
    | .error _ => .error ⟨500, "AttributeError: strip"⟩
    | .ok reply =>
      let _ := saveThreadToGcs save
      let citations := match ragB with | .ok cs => cs | .error _ => []
      .ok ⟨reply, citations, merged⟩

/-! ## Router (state_graph.py) -/

/-- `_last_user` (state_graph.py line 161): the most recent user turn. -/
def lastUser (messages : List Msg) : Option Msg :=
  messages.reverse.find? (fun m => m.role == some "user")

/-- Is there a non-word character (or the end of the text) right after a
candidate word occurrence?  Models the trailing `\b` of the regex. -/
def boundaryAfter : List Char → Bool
  | [] => true
  | c :: _ => !isWordChar c

/-- Does the word `w` occur at the head of `cs`, with a word boundary
after it?  (`cs` is already lowercased; `w` is an ASCII word.) -/
def wordAt (w cs : List Char) : Bool :=
  w.isPrefixOf cs && boundaryAfter (cs.drop w.length)

/-- Scan of `\b<w>\b` over the text: `prev` records whether the previous
character is a word character (the leading `\b` asks for a transition). -/
def wordScan (w : List Char) : List Char → Bool → Bool
  | [], _ => false
  | c :: cs, prev => (!prev && wordAt w (c :: cs)) || wordScan w cs (isWordChar c)

/-- `re.search(r"\b<w>\b", t)` for an ASCII word `w` over text `t`. -/
def wordSearch (w : String) (t : List Char) : Bool := wordScan w.data t false

/-- One step of the juxtaposition pattern `w1\W*w2\W*w3`: each word must
occur literally, separated by runs of non-word characters.  (Because each
following word starts with a word character, the greedy `\W*` run is
forced to be the maximal run, so matching is deterministic.) -/
def chainAt : List (List Char) → List Char → Bool
  | [], _ => true
  | w :: ws, cs => w.isPrefixOf cs && chainAt ws ((cs.drop w.length).dropWhile (fun c => !isWordChar c))

/-- `re.search` of a juxtaposition pattern: try every start position. -/
def chainSearch (ws : List String) : List Char → Bool
  | [] => chainAt (ws.map String.data) []
  | c :: cs => chainAt (ws.map String.data) (c :: cs) || chainSearch ws cs

/-- Plain substring occurrence (a regex alternative with no special
characters, e.g. `all of you`): the pattern is a prefix of some suffix. -/
def substrScan (w : List Char) : List Char → Bool
  | [] => w.isEmpty
  | c :: cs => w.isPrefixOf (c :: cs) || substrScan w cs

/-- `re.search` of a literal pattern `w` in text `t`. -/
def substrSearch (w : String) (t : List Char) : Bool := substrScan w.data t

/-- `_committee_trigger` (state_graph.py lines 164-166): lowercase the
text, then search for
`\bcommittee\b|\bpanel\b|all of you|vc\W*pm\W*cto|pm\W*cto\W*vc`. -/
def committeeTrigger (text : String) : Bool :=
  let t := (strLower text).data
  wordSearch "committee" t || wordSearch "panel" t || substrSearch "all of you" t ||
    chainSearch ["vc", "pm", "cto"] t || chainSearch ["pm", "cto", "vc"] t

/-- The CTO-indicating alternation `\bcto\b|chief technology officer|@cto`
(state_graph.py line 171). -/
def ctoToken (t : List Char) : Bool :=
  wordSearch "cto" t || substrSearch "chief technology officer" t || substrSearch "@cto" t

/-- The PM-indicating alternation `\bpm\b|product manager|@pm`. -/
def pmToken (t : List Char) : Bool :=
  wordSearch "pm" t || substrSearch "product manager" t || substrSearch "@pm" t

/-- The VC-indicating alternation
`\bvc\b|investor|venture capital(ist)?|@vc`.  The optional `(ist)?`
suffix is irrelevant to whether a match exists, so the bare
`venture capital` substring stands for that alternative. -/
def vcToken (t : List Char) : Bool :=
  wordSearch "vc" t || substrSearch "investor" t || substrSearch "venture capital" t ||
    substrSearch "@vc" t

/-- `_heuristic_label` (state_graph.py lines 168-174): lowercase once,
then committee trigger, CTO, PM, VC in order, `MENTOR` as the default. -/
def heuristicLabel (text : String) : String :=
  let t := strLower text
  if committeeTrigger t then "COMMITTEE"
  else if ctoToken t.data then "CTO"
  else if pmToken t.data then "PM"
  else if vcToken t.data then "VC"
  else "MENTOR"

/-- The closed label set `LABELS` (state_graph.py line 148). -/
def LABELS : List String := ["MENTOR", "PM", "CTO", "VC", "COMMITTEE"]

/-- The sanitization `_classify` applies to the completion output
(state_graph.py lines 192-193): strip, uppercase, drop every character
outside `A`-`Z`. -/
def sanitizeLabel (raw : String) : String :=
  ⟨(strUpper (strStrip raw)).data.filter (fun c => 65 ≤ c.toNat && c.toNat ≤ 90)⟩

/-- `_classify` (state_graph.py lines 176-199).  `b` is the behaviour of
the single `llm.complete` classification call: it either returns raw text
or raises.  The source wraps only that call in `try`/`except` (an invalid
label raises `ValueError` inside the same `try`), so classification is
total: every failure lands in the heuristic fallback. -/
def classify (b : Except Unit String) (messages : List Msg) : String :=
  match lastUser messages with
  | none => "MENTOR"
  | some last =>
    let text := pyStr last.content
    if committeeTrigger text then "COMMITTEE"
    else
      match b with
      | .ok raw =>
        let label := sanitizeLabel raw
        if LABELS.contains label then label else heuristicLabel text
      | .error _ => heuristicLabel text

/-! ## Seeding, labeling, persona handlers (state_graph.py) -/

/-- `_ensure_seed` (state_graph.py lines 205-208): drop every system turn
and prepend the persona's system prompt. -/
def ensureSeed (history : List Msg) (systemPrompt : String) : List Msg :=
  ⟨some "system", .str systemPrompt⟩ :: history.filter (fun m => !(m.role == some "system"))

/-- The `LABEL_PREFIX` table (state_graph.py lines 211-216).  The source
dict raises `KeyError` outside the four roles; the model is only ever
applied to those four. -/
def labelTag : String → String
  | "MENTOR" => "**Mentor:** "
  | "PM" => "**PM:** "
  | "CTO" => "**CTO:** "
  | "VC" => "**VC:** "
  | _ => ""

/-- Case-insensitive character-by-character match of a (lowercase)
pattern word against the head of `cs`; returns the rest on success. -/
def matchCI : List Char → List Char → Option (List Char)
  | [], cs => some cs
  | _ :: _, [] => none
  | p :: ps, c :: cs => if charLower c = p then matchCI ps cs else none

/-- The regex `^\s*(?:\*\*\s*)?<role>\s*:\s*` of `_apply_label`
(state_graph.py line 227), for a lowercase `role`: optional leading
whitespace, an optional bold marker `**` with trailing whitespace, the
role name case-insensitively, optional whitespace, then a mandatory
colon.  Each greedy piece is deterministic because what follows it can
never extend the run it consumes. -/
def roleColonMatch (role : String) (s : String) : Bool :=
  let cs := s.data.dropWhile (fun c => isSpaceChar c)
  let cs := if ['*', '*'].isPrefixOf cs then (cs.drop 2).dropWhile (fun c => isSpaceChar c) else cs
  match matchCI role.data cs with
  | none => false
  | some rest =>
    match rest.dropWhile (fun c => isSpaceChar c) with
    | ':' :: _ => true
    | _ => false

/-- `_apply_label` (state_graph.py lines 218-230): strip the reply, and
prefix it with the role tag unless the regex above matches. -/
def applyLabel (label : String) (reply : String) : String :=
  let replyClean := strStrip reply
  if roleColonMatch (strLower label) replyClean then replyClean
  else labelTag label ++ replyClean

/-- The composed per-role system prompts (`ROLE_SYSTEM`), loaded from
prompt configuration files at import time; their contents are
environment-dependent, so they are a parameter of the node functions. -/
structure RoleSystem where
  mentor : String
  pm : String
  cto : String
  vc : String

/-- The per-persona private sub-histories (the `personas` dict of the
graph state; only the keys `PM`, `CTO`, `VC` are ever used). -/
structure Personas where
  pm : List Msg
  cto : List Msg
  vc : List Msg

/-- The graph state a node receives. -/
structure GState where
  messages : List Msg
  personas : Personas

/-- The partial state a node returns: `mentor_node` returns no
`personas` key, the other nodes do. -/
structure NodeOut where
  messages : List Msg
  personas : Option Personas
  phase : String

/-- The reply text after the `try`/`except` of a persona node
(state_graph.py e.g. lines 276-281): a falsy completion result is replaced by a
placeholder, an exception is synthesized into visible error content. -/
def replyOrDefault : Except String String → String
  | .ok r => if r = "" then "(No response generated)" else r
  | .error e => "(Error calling LLM: " ++ e ++ ")"

/-- `mentor_node` (state_graph.py lines 260-271).  `b` is the behaviour
of its `llm.complete` call. -/
def mentorNode (b : Except String String) (rs : RoleSystem) (st : GState) : NodeOut :=
  let _seeded := ensureSeed st.messages rs.mentor
  let reply := replyOrDefault b
  { messages := [⟨some "assistant", .str (applyLabel "MENTOR" reply)⟩],
    personas := none, phase := "mentor" }

/-- `seeded[-2:]`: the last two elements of a Python list. -/
def lastTwo (l : List Msg) : List Msg := l.drop (l.length - 2)

/-- `pm_node` (state_graph.py lines 274-288): reseed, complete, extend
the PM sub-history with `seeded[-2:]`, return one labelled assistant
turn. -/
def pmNode (b : Except String String) (rs : RoleSystem) (st : GState) : NodeOut :=
  let seeded := ensureSeed st.messages rs.pm
  let reply := replyOrDefault b
  let personas := { st.personas with pm := st.personas.pm ++ lastTwo seeded }
  { messages := [⟨some "assistant", .str (applyLabel "PM" reply)⟩],
    personas := some personas, phase := "pm" }

/-- `cto_node` (state_graph.py lines 291-305), same shape as `pm_node`. -/
def ctoNode (b : Except String String) (rs : RoleSystem) (st : GState) : NodeOut :=
  let seeded := ensureSeed st.messages rs.cto
  let reply := replyOrDefault b
  let personas := { st.personas with cto := st.personas.cto ++ lastTwo seeded }
  { messages := [⟨some "assistant", .str (applyLabel "CTO" reply)⟩],
    personas := some personas, phase := "cto" }

/-- `vc_node` (state_graph.py lines 308-322), same shape as `pm_node`. -/
def vcNode (b : Except String String) (rs : RoleSystem) (st : GState) : NodeOut :=
  let seeded := ensureSeed st.messages rs.vc
  let reply := replyOrDefault b
  let personas := { st.personas with vc := st.personas.vc ++ lastTwo seeded }
  { messages := [⟨some "assistant", .str (applyLabel "VC" reply)⟩],
    personas := some personas, phase := "vc" }

/-- The three committee personas, in the source's fan-out order. -/
inductive PName where
  | PM : PName
  | CTO : PName
  | VC : PName
deriving DecidableEq

/-- The Python-side name of a committee persona. -/
def pnameStr : PName → String
  | .PM => "PM"
  | .CTO => "CTO"
  | .VC => "VC"

/-- The reply text `_run_persona` produces (state_graph.py lines
236-241): the completion result with a placeholder for a falsy reply, or
the synthesized per-persona error text on an exception. -/
def runPersonaReply (b : Except String String) (name : String) : String :=
  match b with
  | .ok r => if r = "" then "(No response generated)" else r
  | .error e => "(Error calling LLM for " ++ name ++ ": " ++ e ++ ")"

/-- `_run_persona` (state_graph.py lines 233-242): reseed the persona's
private history, append the current user turn, call the completion
service, and return the extended history plus the reply text. -/
def runPersona (b : Except String String) (name : String) (sysText : String)
    (history : List Msg) (userMsg : Msg) : List Msg × String :=
  let seeded := ensureSeed history sysText ++ [userMsg]
  let reply := runPersonaReply b name
  (seeded ++ [⟨some "assistant", .str reply⟩], reply)

/-- The composed committee document (state_graph.py lines 338-344). -/
def committeeCombined (tPM tCTO tVC : String) : String :=
  "🧑‍⚖️ **Committee Response**\n\n" ++
  "**PM:** " ++ applyLabel "PM" tPM ++ "\n\n" ++
  "**CTO:** " ++ applyLabel "CTO" tCTO ++ "\n\n" ++
  "**VC:** " ++ applyLabel "VC" tVC ++ "\n\n" ++
  "If you want a single, consolidated recommendation, say: `make a final decision`."

/-- `committee_node` (state_graph.py lines 325-350).  `b` gives the
behaviour of the completion call issued for each persona; `mb` the
behaviour of the mentor call used when no user turn exists.  Each
persona's exception is absorbed inside `_run_persona`, so the node is
total: it always returns the single combined assistant turn. -/
def committeeNode (b : PName → Except String String) (mb : Except String String)
    (rs : RoleSystem) (st : GState) : NodeOut :=
  match lastUser st.messages with
  | none => mentorNode mb rs st
  | some u =>
    let pmRes := runPersona (b .PM) "PM" rs.pm st.personas.pm u
    let ctoRes := runPersona (b .CTO) "CTO" rs.cto st.personas.cto u
    let vcRes := runPersona (b .VC) "VC" rs.vc st.personas.vc u
    let combined := committeeCombined pmRes.2 ctoRes.2 vcRes.2
    { messages := [⟨some "assistant", .str combined⟩],
      personas := some ⟨pmRes.1, ctoRes.1, vcRes.1⟩, phase := "committee" }

/-! ## Interview phase state machine

Modelled from the spec: the structured-interview Phase State Machine of
§4.1 (Progress Record, `route`, and the four phase handlers) has no
implementation under `src/`; the definitions below follow the spec's
words literally. -/

/-- Modelled from the spec: the durable Progress Record
`{ intro_done, tests_done, general_done, phase }` of §3, with the
terminal flag the `feedback` handler sets. -/
structure Progress where
  intro_done : Bool
  tests_done : Nat
  general_done : Nat
  finished : Bool

/-- Modelled from the spec: the interview phases. -/
inductive Phase where
  | introduction : Phase
  | testing : Phase
  | exploration : Phase
  | feedback : Phase

/-- Modelled from the spec: the transition function `route(progress)`
of §4.1. -/
def route (p : Progress) : Phase :=
  if !p.intro_done then .introduction
  else if p.tests_done < 3 then .testing
  else if p.general_done < 4 then .exploration
  else .feedback

/-- Modelled from the spec: the state-changing effect of one phase
handler on the Progress Record (§4.1): `introduction` sets `intro_done`;
`testing` increments `tests_done` unless already at 3 (idempotent no-op
guard); `exploration` is the 4-question analogue; `feedback` marks the
session finished and changes nothing else. -/
def applyPhase : Phase → Progress → Progress
  | .introduction, p => { p with intro_done := true }
  | .testing, p => if p.tests_done ≥ 3 then p else { p with tests_done := p.tests_done + 1 }
  | .exploration, p => if p.general_done ≥ 4 then p else { p with general_done := p.general_done + 1 }
  | .feedback, p => { p with finished := true }

/-- Modelled from the spec: one request executes exactly the one handler
`route` selects (§4.1's "exactly one state executes per invocation"). -/
def stepProgress (p : Progress) : Progress := applyPhase (route p) p

/-- Modelled from the spec: a fresh session's Progress Record (§3:
"created ... with all counters at zero/false"). -/
def initProgress : Progress := ⟨false, 0, 0, false⟩

/-! ## Spec-side formulations, for the refinement claims -/

/-- The diff rule in the spec's words (§4.5 step 4): tail slice filtered
to assistant entries when `after` is longer; otherwise the assistant
entries of `after` whose normalized pair does not occur in `before`. -/
def diffRuleSpec (before after : List Msg) : List Msg :=
  if after.length > before.length then
    ((after.drop before.length).filter (fun m => m.role == some "assistant")).map normalizeMsg
  else
    (after.filter
      (fun m => (m.role == some "assistant") && !(decide (msgKey m ∈ before.map msgKey)))).map normalizeMsg

/-- The heuristic chain in the spec's words (§4.2 step 5): CTO-indicating,
then PM-indicating, then VC-indicating tokens in that priority order,
default `MENTOR`. -/
def heuristicChainSpec (text : String) : String :=
  let t := strLower text
  if ctoToken t.data then "CTO"
  else if pmToken t.data then "PM"
  else if vcToken t.data then "VC"
  else "MENTOR"

/-- The router's fallback result: the deterministic keyword-heuristic
label of the latest user turn, `MENTOR` if no user turn exists. -/
def heuristicFallback (messages : List Msg) : String :=
  match lastUser messages with
  | none => "MENTOR"
  | some m => heuristicLabel (pyStr m.content)

/-- A failing classifier behaviour: the completion call raises, or its
answer sanitizes to something outside the five valid labels. -/
def failingClassifier (b : Except Unit String) : Prop :=
  b = .error () ∨ ∃ raw, b = .ok raw ∧ LABELS.contains (sanitizeLabel raw) = false

/-! ## Helper lemmas -/

theorem normalizeMsg_eq (m : Msg) : normalizeMsg m = m := rfl

theorem diff_of_snoc (before : List Msg) (m : Msg) (h : m.role = some "assistant") :
    diffNewAssistantMessages before (before ++ [m]) = [m] := by
  unfold diffNewAssistantMessages
  rw [if_pos (by simp)]
  rw [List.drop_left]
  simp [List.filter, h, normalizeMsg_eq]

theorem diff_self_nil (l : List Msg) : diffNewAssistantMessages l l = [] := by
  unfold diffNewAssistantMessages
  rw [if_neg (by omega)]
  dsimp only
  have hfil : l.filter (fun m => !(decide (msgKey m ∈ l.map msgKey)) && (m.role == some "assistant")) = [] := by
    apply List.filter_eq_nil_iff.mpr
    intro a ha
    have hm : msgKey a ∈ l.map msgKey := List.mem_map_of_mem msgKey ha
    simp [hm]
  rw [hfil]
  rfl

/-! ## Claims -/

/-- Claim C1: idempotence of the diff-and-extend merge step.  For every
history `before` and an `after` that is `before` plus exactly one new
assistant turn, applying the merge step twice (feeding the once-merged
history back in as `before` with the same `after`) equals applying it
once: no duplicate assistant turn is appended. -/
theorem diff_merge_idempotent (before : List Msg) (m : Msg)
    (h : m.role = some "assistant") :
    mergeStep (mergeStep before (before ++ [m])) (before ++ [m]) =
      mergeStep before (before ++ [m]) := by
  have h1 : mergeStep before (before ++ [m]) = before ++ [m] := by
    unfold mergeStep
    rw [diff_of_snoc before m h]
  rw [h1]
  unfold mergeStep
  rw [diff_self_nil, List.append_nil]

/-- Witness for C1 at a concrete one-user history and one new assistant
turn. -/
theorem diff_merge_idempotent_witness :
    mergeStep
        (mergeStep [⟨some "user", .str "hi"⟩]
          ([⟨some "user", .str "hi"⟩] ++ [⟨some "assistant", .str "yo"⟩]))
        ([⟨some "user", .str "hi"⟩] ++ [⟨some "assistant", .str "yo"⟩]) =
      mergeStep [⟨some "user", .str "hi"⟩]
        ([⟨some "user", .str "hi"⟩] ++ [⟨some "assistant", .str "yo"⟩]) :=
  diff_merge_idempotent [⟨some "user", .str "hi"⟩] ⟨some "assistant", .str "yo"⟩ rfl

/-- Claim C2: the diff rule computes exactly what the spec states — the
assistant entries of the tail slice when `after` is strictly longer,
otherwise the assistant entries of `after` whose normalized
`(role, content)` pair does not occur in `before`. -/
theorem diff_rule_matches_spec (before after : List Msg) :
    diffNewAssistantMessages before after = diffRuleSpec before after := by
  unfold diffNewAssistantMessages diffRuleSpec
  split
  · rfl
  · dsimp only
    congr 1
    apply List.filter_congr
    intro m _
    exact Bool.and_comm _ _

/-- Claim C3, counterexample: a request on which both the session-store
load and save fail still returns a normal `200`-style reply — the store
faults are not surfaced as a 5xx error, contradicting the claim. -/
theorem chat_store_fault_returns_ok :
    chat "D" .fault .fault
        (fun h => .ok (h ++ [⟨some "assistant", .str "Hello!"⟩])) (.ok [])
        ⟨"Hi", [], false, none, none⟩ =
      .ok ⟨"Hello!", [],
        [⟨some "system", .str "D"⟩, ⟨some "user", .str "Hi"⟩,
          ⟨some "assistant", .str "Hello!"⟩]⟩ := by
  rfl

/-- Claim C3, amended: store faults are absorbed, not propagated.  A
failing load is handled exactly like a missing thread (the request
restarts from an empty history re-seeded with the system prompt), and a
failing save is logged and ignored: the endpoint's observable outcome is
identical under every store-fault combination, so a store fault is never
surfaced to the caller as an error. -/
theorem chat_store_faults_absorbed (dp : String) (s1 s2 : SaveOutcome)
    (gb : List Msg → Except String (List Msg)) (ragB : Except Unit (List Citation))
    (req : ChatRequest) :
    chat dp .fault s1 gb ragB req = chat dp .notFound s2 gb ragB req := rfl

/-- Claim C10: the request-supplied `history` field is ignored.  Two chat
requests identical except for `history`, under the same persisted store
contents and the same external-service behaviour, produce identical
replies, citations and persisted merged histories. -/
theorem chat_ignores_request_history (dp : String) (load : LoadOutcome)
    (save : SaveOutcome) (gb : List Msg → Except String (List Msg))
    (ragB : Except Unit (List Citation)) (req : ChatRequest) (hist : List Msg) :
    chat dp load save gb ragB { req with history := hist } =
      chat dp load save gb ragB req := rfl

/-- Claim C7, code-bug evidence: the label-prefix policy adds another
prefix to a reply that already begins with the role name when no colon
follows it, because the regex `^\s*(?:\*\*\s*)?pm\s*:\s*` demands a
colon — contradicting the claim and the function's own docstring
("with/without bold and colon").  Double application is nonetheless
stable, since the added tag itself carries the colon. -/
theorem apply_label_requires_colon :
    applyLabel "PM" "PM here is my take" = "**PM:** PM here is my take" ∧
    roleColonMatch (strLower "PM") "PM here is my take" = false ∧
    applyLabel "PM" (applyLabel "PM" "PM here is my take") =
      applyLabel "PM" "PM here is my take" := by
  refine ⟨rfl, rfl, rfl⟩

/-- Claim C8, code-bug evidence: on a fresh session (`system` seed plus
one user turn) with a successful completion `"Sure."`, `pm_node` returns
exactly one labelled assistant turn, but the PM sub-history entry it
stores is `seeded[-2:]` — the persona system turn and the user turn of
the pre-completion request — and contains no assistant turn at all, so
the newly produced reply is absent from the sub-history, contradicting
the claim (and the source's own `# last user + this assistant` comment). -/
theorem pm_node_subhistory_omits_reply :
    (pmNode (.ok "Sure.") ⟨"M", "PMSYS", "C", "V"⟩
        ⟨[⟨some "system", .str "S"⟩, ⟨some "user", .str "hi"⟩], ⟨[], [], []⟩⟩).messages =
      [⟨some "assistant", .str "**PM:** Sure."⟩] ∧
    (pmNode (.ok "Sure.") ⟨"M", "PMSYS", "C", "V"⟩
        ⟨[⟨some "system", .str "S"⟩, ⟨some "user", .str "hi"⟩], ⟨[], [], []⟩⟩).personas =
      some ⟨[⟨some "system", .str "PMSYS"⟩, ⟨some "user", .str "hi"⟩], [], []⟩ ∧
    ((pmNode (.ok "Sure.") ⟨"M", "PMSYS", "C", "V"⟩
        ⟨[⟨some "system", .str "S"⟩, ⟨some "user", .str "hi"⟩], ⟨[], [], []⟩⟩).personas.map
      (fun pers => pers.pm.any (fun m => m.role == some "assistant"))) = some false := by
  refine ⟨rfl, rfl, rfl⟩

/-- Claim C4: the hard committee trigger.  For every history whose most
recent user turn's text contains the word `committee` (case-insensitive,
as a bounded word), the router returns `COMMITTEE`, whatever the
external classifier call would do. -/
theorem hard_committee_trigger (b : Except Unit String) (messages : List Msg)
    (m : Msg) (h1 : lastUser messages = some m)
    (h2 : wordSearch "committee" (strLower (pyStr m.content)).data = true) :
    classify b messages = "COMMITTEE" := by
  have ht : committeeTrigger (pyStr m.content) = true := by
    unfold committeeTrigger
    dsimp only
    rw [h2]
    simp
  unfold classify
  rw [h1]
  dsimp only
  rw [if_pos ht]

/-- Witness for C4: a concrete history asking for the committee, with a
classifier that would have answered `PM`, still routes to `COMMITTEE`. -/
theorem hard_committee_trigger_witness :
    classify (.ok "PM") [⟨some "user", .str "Let the Committee decide"⟩] = "COMMITTEE" :=
  hard_committee_trigger (.ok "PM") [⟨some "user", .str "Let the Committee decide"⟩]
    ⟨some "user", .str "Let the Committee decide"⟩ rfl rfl

theorem committeeTrigger_strLower (text : String) :
    committeeTrigger (strLower text) = committeeTrigger text := by
  unfold committeeTrigger
  rw [strLower_idem]

theorem heuristicLabel_of_trigger (text : String)
    (h : committeeTrigger text = true) : heuristicLabel text = "COMMITTEE" := by
  unfold heuristicLabel
  dsimp only
  rw [committeeTrigger_strLower, h]
  rfl

/-- Claim C5: a failing classifier is non-fatal.  Whenever the external
classifier raises, or answers something whose sanitized form is not one
of the five labels, the router returns the deterministic keyword
heuristic of the latest user turn (`MENTOR` when no user turn exists);
and outside the committee-trigger case the heuristic is exactly the
CTO-then-PM-then-VC priority chain with default `MENTOR`.  (The router
itself never raises: the source confines its only fallible call to the
`try` block whose `except` produces the heuristic, which the model
reflects by being a total function.) -/
theorem classifier_failure_heuristic (messages : List Msg) (b : Except Unit String)
    (hb : failingClassifier b) :
    classify b messages = heuristicFallback messages ∧
      (∀ text, committeeTrigger (strLower text) = false →
        heuristicLabel text = heuristicChainSpec text) := by
  constructor
  · unfold classify heuristicFallback
    cases hl : lastUser messages with
    | none => rfl
    | some m =>
      dsimp only
      by_cases ht : committeeTrigger (pyStr m.content) = true
      · rw [if_pos ht, heuristicLabel_of_trigger _ ht]
      · rw [if_neg ht]
        rcases hb with he | ⟨raw, hraw, hbad⟩
        · rw [he]
        · rw [hraw]
          dsimp only
          rw [if_neg (by rw [hbad]; exact Bool.false_ne_true)]
  · intro text htr
    unfold heuristicLabel heuristicChainSpec
    dsimp only
    rw [htr]
    rfl

/-- Witness for C5: with a raising classifier and a CTO-flavoured user
turn, the router returns the heuristic's `CTO`. -/
theorem classifier_failure_heuristic_witness :
    classify (.error ()) [⟨some "user", .str "need a CTO review"⟩] =
      heuristicFallback [⟨some "user", .str "need a CTO review"⟩] ∧
    heuristicFallback [⟨some "user", .str "need a CTO review"⟩] = "CTO" :=
  ⟨(classifier_failure_heuristic [⟨some "user", .str "need a CTO review"⟩]
      (.error ()) (Or.inl rfl)).1, rfl⟩

/-- Claim C6: committee partial-failure containment.  If the completion
call fails for exactly one of the three personas and succeeds with a
non-empty reply for the other two, the committee node still returns the
single combined assistant turn, whose content is the composed document
with all three sections in the fixed order PM, CTO, VC; the failed persona's
section text is the synthesized error string and the other two sections
carry their normal replies.  (The node itself never raises: each
persona's exception is absorbed inside `_run_persona`.) -/
theorem committee_partial_failure (b : PName → Except String String)
    (mb : Except String String) (rs : RoleSystem) (st : GState) (u : Msg)
    (p0 : PName) (e : String)
    (hu : lastUser st.messages = some u)
    (hfail : b p0 = .error e)
    (hok : ∀ p, p ≠ p0 → ∃ r, b p = .ok r ∧ r ≠ "") :
    (committeeNode b mb rs st).messages =
      [⟨some "assistant", .str (committeeCombined
        (runPersonaReply (b .PM) "PM") (runPersonaReply (b .CTO) "CTO")
        (runPersonaReply (b .VC) "VC"))⟩] ∧
    runPersonaReply (b p0) (pnameStr p0) =
      "(Error calling LLM for " ++ pnameStr p0 ++ ": " ++ e ++ ")" ∧
    (∀ p r, p ≠ p0 → b p = .ok r → runPersonaReply (b p) (pnameStr p) = r) := by
  refine ⟨?_, ?_, ?_⟩
  · unfold committeeNode
    rw [hu]
    rfl
  · rw [hfail]
    rfl
  · intro p r hne hbp
    rcases hok p hne with ⟨r2, hr2, hr2ne⟩
    rw [hbp] at hr2
    injection hr2 with hrr
    subst hrr
    unfold runPersonaReply
    rw [hbp]
    simp [hr2ne]

/-- Witness for C6: CTO's completion raises `boom`, PM and VC answer
normally; the node returns the single combined turn and the CTO section
text is the synthesized error string. -/
theorem committee_partial_failure_witness :
    (committeeNode
        (fun p => match p with | .CTO => .error "boom" | _ => .ok "Fine.")
        (.ok "m") ⟨"M", "P", "C", "V"⟩
        ⟨[⟨some "user", .str "evaluate pricing"⟩], ⟨[], [], []⟩⟩).messages =
      [⟨some "assistant", .str (committeeCombined
        (runPersonaReply ((fun p => match p with
          | PName.CTO => Except.error "boom" | _ => Except.ok "Fine.") PName.PM) "PM")
        (runPersonaReply ((fun p => match p with
          | PName.CTO => Except.error "boom" | _ => Except.ok "Fine.") PName.CTO) "CTO")
        (runPersonaReply ((fun p => match p with
          | PName.CTO => Except.error "boom" | _ => Except.ok "Fine.") PName.VC) "VC"))⟩] ∧
    runPersonaReply ((fun p => match p with
        | PName.CTO => Except.error "boom" | _ => Except.ok "Fine.") PName.CTO)
      (pnameStr PName.CTO) = "(Error calling LLM for CTO: boom)" := by
  have h := committee_partial_failure
    (fun p => match p with | .CTO => .error "boom" | _ => .ok "Fine.")
    (.ok "m") ⟨"M", "P", "C", "V"⟩
    ⟨[⟨some "user", .str "evaluate pricing"⟩], ⟨[], [], []⟩⟩
    ⟨some "user", .str "evaluate pricing"⟩ .CTO "boom" rfl rfl
    (by
      intro p hp
      cases p with
      | PM => exact ⟨"Fine.", rfl, by decide⟩
      | CTO => exact absurd rfl hp
      | VC => exact ⟨"Fine.", rfl, by decide⟩)
  exact ⟨h.1, h.2.1⟩

theorem stepProgress_tests_mono (p : Progress) :
    p.tests_done ≤ (stepProgress p).tests_done := by
  unfold stepProgress route applyPhase
  repeat' split
  all_goals simp

theorem stepProgress_general_mono (p : Progress) :
    p.general_done ≤ (stepProgress p).general_done := by
  unfold stepProgress route applyPhase
  repeat' split
  all_goals simp

theorem stepProgress_bounds (p : Progress) (h1 : p.tests_done ≤ 3)
    (h2 : p.general_done ≤ 4) :
    (stepProgress p).tests_done ≤ 3 ∧ (stepProgress p).general_done ≤ 4 := by
  unfold stepProgress route applyPhase
  repeat' split
  all_goals simp_all
  all_goals omega

theorem iterate_stepProgress_bounds (n : Nat) :
    ((stepProgress^[n]) initProgress).tests_done ≤ 3 ∧
      ((stepProgress^[n]) initProgress).general_done ≤ 4 := by
  induction n with
  | zero => exact ⟨by decide, by decide⟩
  | succ k ih =>
    rw [Function.iterate_succ_apply']
    exact stepProgress_bounds _ ih.1 ih.2

/-- Claim C9 (spec-modelled): along the lifetime of every session
starting from the fresh Progress Record, `tests_done` and `general_done`
are non-decreasing from one request to the next and never exceed 3 and
4 respectively, where each request applies exactly the one handler
selected by `route(progress)`. -/
theorem phase_counters_monotone_bounded (n : Nat) :
    ((stepProgress^[n]) initProgress).tests_done ≤
        ((stepProgress^[n + 1]) initProgress).tests_done ∧
      ((stepProgress^[n]) initProgress).general_done ≤
        ((stepProgress^[n + 1]) initProgress).general_done ∧
      ((stepProgress^[n]) initProgress).tests_done ≤ 3 ∧
      ((stepProgress^[n]) initProgress).general_done ≤ 4 := by
  have hb := iterate_stepProgress_bounds n
  refine ⟨?_, ?_, hb.1, hb.2⟩
  · rw [Function.iterate_succ_apply']
    exact stepProgress_tests_mono _
  · rw [Function.iterate_succ_apply']
    exact stepProgress_general_mono _
